import Mathlib

/-!
Verification development for `src/wgpu/src/quad/gradient.rs` of the
`iced-with-radial-gradient` repository: a shallow embedding of the
gradient quad subsystem (instance layer, partition, buffer management,
pipeline configuration and render dispatch) together with theorems
settling the specification's claims.

Floating-point values are carried as their 32-bit bit patterns
(natural numbers below 2^32); no claim performs float arithmetic.
-/

namespace IcedGradient

/-- Modelled from the spec: `gradient::LinearPacked` lives in the
repository's graphics crate, which is not under `src/`.  Per spec §3/§4.3
it is a fixed-layout record: eight colors of two 32-bit words each
(16 words), eight 16-bit stop offsets packed two per 32-bit word
(4 words), and a direction vector of four 32-bit floats (4 words).
Each word is carried as a `Nat` bit pattern. -/
structure LinearPacked where
  colors : List Nat
  offsets : List Nat
  direction : List Nat
deriving DecidableEq, Repr, Inhabited

/-- Modelled from the spec: `gradient::RadialPacked`, same fixed layout as
`LinearPacked` except that the final four 32-bit floats hold the center
point and the radii pair instead of a direction vector. -/
structure RadialPacked where
  colors : List Nat
  offsets : List Nat
  center_and_radii : List Nat
deriving DecidableEq, Repr, Inhabited

/-- Modelled from the spec: `gradient::Packed`, the closed two-way tagged
variant over the two kind-specific packed records (spec §3, "Gradient
kind"); the source matches on `gradient::Packed::Linear`/`::Radial`
(gradient.rs lines 84 and 96). -/
inductive Packed where
  | Linear (l : LinearPacked)
  | Radial (r : RadialPacked)
deriving DecidableEq, Repr

/-- Modelled from the spec: `quad::Quad` lives in the quad module, not
under `src/`.  Per spec §3 ("Quad Geometry") and the vertex layout of
§4.3 it carries position (2 words), size (2 words), border color
(4 words), border radius (4 words), border width (1 word) and the
pixel-snap flag (1 word). -/
structure Quad where
  position : List Nat
  size : List Nat
  border_color : List Nat
  border_radius : List Nat
  border_width : Nat
  snap : Nat
deriving DecidableEq, Repr, Inhabited

/-- The CPU-side `Gradient` struct (gradient.rs lines 16-22): a packed
gradient paired with quad geometry. -/
structure Gradient where
  gradient : Packed
  quad : Quad
deriving DecidableEq, Repr

/-- The flattened Linear GPU instance record (gradient.rs lines 26-32). -/
structure LinearGradient where
  gradient : LinearPacked
  quad : Quad
deriving DecidableEq, Repr, Inhabited

/-- The flattened Radial GPU instance record (gradient.rs lines 36-42). -/
structure RadialGradient where
  gradient : RadialPacked
  quad : Quad
deriving DecidableEq, Repr, Inhabited

/-- Modelled from the spec: `crate::Buffer`, the growable device buffer,
is not under `src/`.  Spec §9 describes it as an arena with an explicit
capacity, a grow-only `resize` and a bounded `write`.  `contents` is the
device-side data; a fresh buffer is zero-initialised (`default` slots). -/
structure Buffer (α : Type) where
  capacity : Nat
  contents : List α
deriving DecidableEq, Repr

/-- Modelled from the spec: `Buffer::new` allocates `c` slots of
device memory (gradient.rs lines 53-65 pass `quad::INITIAL_INSTANCES`,
a constant of the quad module that is not under `src/`, so the initial
capacity is kept as a parameter). -/
def Buffer.new (α : Type) [Inhabited α] (c : Nat) : Buffer α :=
  ⟨c, List.replicate c default⟩

/-- Modelled from the spec: `Buffer::resize` is grow-only (spec §4.2,
§9): when the requested count exceeds the capacity the buffer is
re-created at the requested count (old contents are lost, slots are
zero-initialised); otherwise it is a no-op. -/
def Buffer.resize {α : Type} [Inhabited α] (b : Buffer α) (n : Nat) : Buffer α :=
  if b.capacity < n then ⟨n, List.replicate n default⟩ else b

/-- Modelled from the spec: `Buffer::write` stages a copy of `data` into
the buffer at slot `off` within the frame's transfer scope.  A copy that
does not fit the buffer is a device validation error (spec §7 treats
such failures as frame-fatal, never partially applied), so the contents
are left unchanged in that case. -/
def Buffer.write {α : Type} (b : Buffer α) (off : Nat) (data : List α) : Buffer α :=
  if off + data.length ≤ b.capacity then
    ⟨b.capacity, b.contents.take off ++ data ++ b.contents.drop (off + data.length)⟩
  else b

/-- The `Layer` state (gradient.rs lines 45-49): one buffer per gradient
kind plus the bookkeeping instance count. -/
structure Layer where
  linear_instances : Buffer LinearGradient
  radial_instances : Buffer RadialGradient
  instance_count : Nat
deriving DecidableEq, Repr

/-- `Layer::new` (gradient.rs lines 52-72): both buffers start with the
same initial capacity (`quad::INITIAL_INSTANCES` in the source, kept as
the parameter `c`) and the instance count is zero. -/
def Layer.new (c : Nat) : Layer :=
  ⟨Buffer.new LinearGradient c, Buffer.new RadialGradient c, 0⟩

/-- The Linear sub-sequence computed by `Layer::prepare`
(gradient.rs lines 81-92): a `filter_map` pass keeping, in input order,
every instance whose packed gradient is `Linear`, flattened into a
`LinearGradient` record. -/
def linearInstancesOf (instances : List Gradient) : List LinearGradient :=
  instances.filterMap fun g =>
    match g.gradient with
    | .Linear l => some ⟨l, g.quad⟩
    | .Radial _ => none

/-- The Radial sub-sequence computed by `Layer::prepare`
(gradient.rs lines 93-104): a `filter_map` pass keeping, in input order,
every instance whose packed gradient is `Radial`, flattened into a
`RadialGradient` record. -/
def radialInstancesOf (instances : List Gradient) : List RadialGradient :=
  instances.filterMap fun g =>
    match g.gradient with
    | .Linear _ => none
    | .Radial r => some ⟨r, g.quad⟩

/-- A buffer operation issued by `Layer::prepare`, naming which of the
two buffers it targets. -/
inductive PrepareOp where
  | resizeLinear (n : Nat)
  | writeLinear (off : Nat) (data : List LinearGradient)
  | resizeRadial (n : Nat)
  | writeRadial (off : Nat) (data : List RadialGradient)
deriving DecidableEq, Repr

/-- The sequence of buffer operations `Layer::prepare` issues
(gradient.rs lines 106-118), in program order.  Note the source's radial
branch (line 114) calls `self.linear_instances.resize(device,
linear_instances.len())` — a resize of the LINEAR buffer with the
Linear sub-sequence's length — before writing the Radial buffer; the
Radial buffer itself is never resized.  The embedding reproduces this
faithfully. -/
def Layer.prepareOps (instances : List Gradient) : List PrepareOp :=
  let li := linearInstancesOf instances
  let ri := radialInstancesOf instances
  (if li.isEmpty then [] else [.resizeLinear li.length, .writeLinear 0 li]) ++
  (if ri.isEmpty then [] else [.resizeLinear li.length, .writeRadial 0 ri])

/-- Applies one buffer operation to the layer state. -/
def Layer.applyOp (l : Layer) : PrepareOp → Layer
  | .resizeLinear n => { l with linear_instances := l.linear_instances.resize n }
  | .writeLinear off d => { l with linear_instances := l.linear_instances.write off d }
  | .resizeRadial n => { l with radial_instances := l.radial_instances.resize n }
  | .writeRadial off d => { l with radial_instances := l.radial_instances.write off d }

/-- `Layer::prepare` (gradient.rs lines 74-121): partition the input,
issue the buffer operations of `Layer.prepareOps`, and record the total
instance count. -/
def Layer.prepare (l : Layer) (instances : List Gradient) : Layer :=
  { (Layer.prepareOps instances).foldl Layer.applyOp l with
    instance_count := instances.length }

/-- True when the operation targets the Linear buffer. -/
def PrepareOp.targetsLinear : PrepareOp → Bool
  | .resizeLinear _ => true
  | .writeLinear _ _ => true
  | .resizeRadial _ => false
  | .writeRadial _ _ => false

/-- True when the operation is a resize of the Linear buffer. -/
def PrepareOp.isResizeOfLinear : PrepareOp → Bool
  | .resizeLinear _ => true
  | _ => false

/-- True when the operation is a resize of the Radial buffer. -/
def PrepareOp.isResizeOfRadial : PrepareOp → Bool
  | .resizeRadial _ => true
  | _ => false

/-- True when the operation is a write (a memory transfer). -/
def PrepareOp.isWrite : PrepareOp → Bool
  | .writeLinear _ _ => true
  | .writeRadial _ _ => true
  | _ => false

/-- The render strategy tag (gradient.rs lines 9-12). -/
inductive GradientRenderStrategy where
  | Linear
  | Radial
deriving DecidableEq, Repr

/-- A command recorded onto the render pass by `Pipeline::render`.  The
pipeline and vertex buffer commands record which kind's object they
bind. -/
inductive RenderCmd where
  | setPipeline (kind : GradientRenderStrategy)
  | setVertexBuffer (slot : Nat) (kind : GradientRenderStrategy)
  | setBindGroup (index : Nat)
  | draw (vertexStart vertexEnd instStart instEnd : Nat)
deriving DecidableEq, Repr

/-- Modulus of the 32-bit unsigned integers that `wgpu` draw calls take;
the source casts `usize` range bounds with `as u32` (gradient.rs
line 277), which truncates. -/
def U32_MOD : Nat := 4294967296

/-- `Pipeline::render` (gradient.rs lines 256-279): match on the
strategy to bind the matching pipeline and that kind's instance buffer
at slot 0, bind the shared constants group at index 0, then draw
vertices `0..6` instanced over `range.start as u32 .. range.end as u32`. -/
def Pipeline.render (rangeStart rangeEnd : Nat) (strategy : GradientRenderStrategy) :
    List RenderCmd :=
  (match strategy with
   | .Linear => [.setPipeline .Linear, .setVertexBuffer 0 .Linear]
   | .Radial => [.setPipeline .Radial, .setVertexBuffer 0 .Radial]) ++
  [.setBindGroup 0, .draw 0 6 (rangeStart % U32_MOD) (rangeEnd % U32_MOD)]

/-- The kind recorded by a pipeline-binding command, if any. -/
def cmdPipelineKind : RenderCmd → Option GradientRenderStrategy
  | .setPipeline k => some k
  | _ => none

/-- The kind recorded by a vertex-buffer-binding command, if any. -/
def cmdBufferKind : RenderCmd → Option GradientRenderStrategy
  | .setVertexBuffer _ k => some k
  | _ => none

/-- The draw calls among a command list, as
(vertexStart, vertexEnd, instStart, instEnd) tuples. -/
def drawsOf (cmds : List RenderCmd) : List (Nat × Nat × Nat × Nat) :=
  cmds.filterMap fun c =>
    match c with
    | .draw a b i j => some (a, b, i, j)
    | _ => none

/-- The shader-source fragments concatenated by
`Pipeline::create_gradient_pipeline` (gradient.rs lines 183-193); the
fragment files themselves are not under `src/`, so they are modelled as
named tokens. -/
inductive ShaderFragment where
  | quadShape
  | vertexTransform
  | fillLinear
  | fillRadial
  | colorModule
  | linearRgbModule
deriving DecidableEq, Repr

/-- The kind-specific fill fragment passed to
`create_gradient_pipeline`: `gradient_linear.wgsl` for the linear
pipeline and `gradient_radial.wgsl` for the radial one (gradient.rs
lines 148-163). -/
def kindFillFragment : GradientRenderStrategy → ShaderFragment
  | .Linear => .fillLinear
  | .Radial => .fillRadial

/-- The ordered concatenation of shader fragments building each
pipeline's module (gradient.rs lines 186-192): `quad.wgsl`,
`vertex.wgsl`, the kind-specific fill shader, `color.wgsl`,
`color/linear_rgb.wgsl`. -/
def shaderFragments (k : GradientRenderStrategy) : List ShaderFragment :=
  [.quadShape, .vertexTransform, kindFillFragment k, .colorModule, .linearRgbModule]

/-- The vertex attribute formats appearing in the gradient pipeline's
vertex buffer layout. -/
inductive VertexFormat where
  | Uint32x4
  | Float32x4
  | Float32
  | Uint32
deriving DecidableEq, Repr

/-- Byte size of each vertex attribute format (four bytes per 32-bit
component). -/
def VertexFormat.byteSize : VertexFormat → Nat
  | .Uint32x4 => 16
  | .Float32x4 => 16
  | .Float32 => 4
  | .Uint32 => 4

/-- One vertex attribute: shader location and format (offsets are
implicit and consecutive, as produced by `vertex_attr_array!`). -/
structure VertexAttr where
  shaderLocation : Nat
  format : VertexFormat
deriving DecidableEq, Repr

/-- Step mode of a vertex buffer layout. -/
inductive VertexStepMode where
  | Vertex
  | Instance
deriving DecidableEq, Repr

/-- The attribute list configured for both gradient pipelines
(gradient.rs lines 207-230): locations 0-4 are `Uint32x4` (four
color-pair words then the offsets word), locations 5-8 are `Float32x4`
(direction-or-center+radii, position & scale, border color, border
radius), location 9 is `Float32` (border width) and location 10 is
`Uint32` (snap flag). -/
def gradientVertexAttrs : List VertexAttr :=
  [⟨0, .Uint32x4⟩, ⟨1, .Uint32x4⟩, ⟨2, .Uint32x4⟩, ⟨3, .Uint32x4⟩,
   ⟨4, .Uint32x4⟩, ⟨5, .Float32x4⟩, ⟨6, .Float32x4⟩, ⟨7, .Float32x4⟩,
   ⟨8, .Float32x4⟩, ⟨9, .Float32⟩, ⟨10, .Uint32⟩]

/-- The step mode configured for the gradient vertex buffer layout
(gradient.rs line 206): per-instance stepping. -/
def gradientVertexStepMode : VertexStepMode := .Instance

/-- Modelled from the spec: byte size of the kind-specific packed
gradient record (`LinearPacked`/`RadialPacked`), per the layout of spec
§4.3: eight colors of two 32-bit words each (64 bytes), eight 16-bit
offsets packed two per 32-bit word (16 bytes), and four 32-bit floats of
kind-specific geometry (16 bytes). -/
def packedRecordBytes : Nat := 8 * 8 + 4 * 4 + 4 * 4

/-- Modelled from the spec: byte size of the `Quad` geometry record, per
spec §3/§4.3: position and scale (16 bytes), border color (16 bytes),
border radius (16 bytes), border width (4 bytes), snap flag (4 bytes). -/
def quadBytes : Nat := 16 + 16 + 16 + 4 + 4

/-- Byte size of the flattened per-kind GPU instance record
(`LinearGradient`/`RadialGradient`, gradient.rs lines 24-42):
a packed record followed by the quad geometry, both `repr(C)` with all
fields 4-byte aligned, hence no padding. -/
def flattenedInstanceBytes : Nat := packedRecordBytes + quadBytes

/-- Modelled from the spec: byte size of the tagged `gradient::Packed`
enum.  Its two variants are 96-byte plain-data payloads in which every
bit pattern is valid, so the discriminant needs storage of its own;
Rust's tagged layout uses one 4-byte-aligned tag word ahead of the
payload. -/
def packedEnumBytes : Nat := 4 + packedRecordBytes

/-- Byte size of the CPU-side tagged `Gradient` struct (gradient.rs
lines 16-22): the tagged `Packed` enum followed by the quad geometry. -/
def gradientStructBytes : Nat := packedEnumBytes + quadBytes

/-- The `array_stride` configured for the gradient vertex buffer layout:
the source uses `std::mem::size_of::<Gradient>()` — the size of the
TAGGED CPU struct, not of the flattened per-kind record (gradient.rs
line 205). -/
def gradientArrayStride : Nat := gradientStructBytes

/-- Spec-side definition, written from the spec's words (§4.2): a single
stable pass over the input producing the ordered Linear and Radial
sub-sequences.  It is compared with the two `filter_map` passes of the
source. -/
def stablePartitionSpec : List Gradient → List LinearGradient × List RadialGradient
  | [] => ([], [])
  | g :: rest =>
    let p := stablePartitionSpec rest
    match g.gradient with
    | .Linear l => (⟨l, g.quad⟩ :: p.1, p.2)
    | .Radial r => (p.1, ⟨r, g.quad⟩ :: p.2)

/-- A sample quad geometry, distinguished by its border width. -/
def sampleQuad (w : Nat) : Quad :=
  ⟨List.replicate 2 0, List.replicate 2 0, List.replicate 4 0,
   List.replicate 4 0, w, 0⟩

/-- A sample packed gradient payload. -/
def samplePacked : List Nat × List Nat × List Nat :=
  (List.replicate 16 0, List.replicate 4 0, List.replicate 4 0)

/-- A sample Linear gradient instance, distinguished by `w`. -/
def sampleLinear (w : Nat) : Gradient :=
  ⟨.Linear ⟨samplePacked.1, samplePacked.2.1, samplePacked.2.2⟩, sampleQuad w⟩

/-- A sample Radial gradient instance, distinguished by `w`. -/
def sampleRadial (w : Nat) : Gradient :=
  ⟨.Radial ⟨samplePacked.1, samplePacked.2.1, samplePacked.2.2⟩, sampleQuad w⟩

/-- The flattened record of `sampleLinear w`. -/
def sampleLinearRec (w : Nat) : LinearGradient :=
  ⟨⟨samplePacked.1, samplePacked.2.1, samplePacked.2.2⟩, sampleQuad w⟩

/-- The flattened record of `sampleRadial w`. -/
def sampleRadialRec (w : Nat) : RadialGradient :=
  ⟨⟨samplePacked.1, samplePacked.2.1, samplePacked.2.2⟩, sampleQuad w⟩

/-- C3: for every input instance list, the two `filter_map` passes of
`Layer::prepare` compute exactly the single-pass stable partition of the
input — each kind's sub-sequence keeps the input's relative order — and
the two sub-sequences together account for every input instance exactly
once (their lengths sum to the input's length). -/
theorem c3_partition_is_stable (instances : List Gradient) :
    (linearInstancesOf instances, radialInstancesOf instances) =
      stablePartitionSpec instances ∧
    (linearInstancesOf instances).length + (radialInstancesOf instances).length =
      instances.length := by
  constructor
  · induction instances with
    | nil => rfl
    | cons g rest ih =>
      have h₁ : linearInstancesOf rest = (stablePartitionSpec rest).1 := by rw [← ih]
      have h₂ : radialInstancesOf rest = (stablePartitionSpec rest).2 := by rw [← ih]
      cases hg : g.gradient with
      | Linear l =>
        simp only [linearInstancesOf, radialInstancesOf, stablePartitionSpec,
          List.filterMap_cons, hg, Prod.mk.injEq]
        exact ⟨congrArg (List.cons _) h₁, h₂⟩
      | Radial r =>
        simp only [linearInstancesOf, radialInstancesOf, stablePartitionSpec,
          List.filterMap_cons, hg, Prod.mk.injEq]
        exact ⟨h₁, congrArg (List.cons _) h₂⟩
  · induction instances with
    | nil => rfl
    | cons g rest ih =>
      simp only [linearInstancesOf, radialInstancesOf] at ih ⊢
      cases hg : g.gradient with
      | Linear l =>
        simp only [List.filterMap_cons, hg, List.length_cons]
        omega
      | Radial r =>
        simp only [List.filterMap_cons, hg, List.length_cons]
        omega

/-- A resize to a count not exceeding the capacity is a no-op. -/
theorem Buffer.resize_eq_of_le {α : Type} [Inhabited α] (b : Buffer α) (n : Nat)
    (h : n ≤ b.capacity) : b.resize n = b := by
  unfold Buffer.resize
  rw [if_neg (Nat.not_lt.mpr h)]

/-- After a resize the capacity is at least the requested count. -/
theorem Buffer.le_capacity_resize {α : Type} [Inhabited α] (b : Buffer α) (n : Nat) :
    n ≤ (b.resize n).capacity := by
  unfold Buffer.resize
  split
  · exact Nat.le_refl n
  · exact Nat.le_of_not_lt (by assumption)

/-- A write never changes the capacity. -/
theorem Buffer.capacity_write {α : Type} (b : Buffer α) (off : Nat) (data : List α) :
    (b.write off data).capacity = b.capacity := by
  unfold Buffer.write
  split <;> rfl

/-- A write at slot 0 that fits puts the data at the front of the
contents. -/
theorem Buffer.write_take_of_len {α : Type} (b : Buffer α) (data : List α) (n : Nat)
    (hn : data.length = n) (h : data.length ≤ b.capacity) :
    ((b.write 0 data).contents).take n = data := by
  subst hn
  unfold Buffer.write
  rw [if_pos (by simpa using h)]
  simp only [List.take_zero, List.nil_append, Nat.zero_add]
  exact List.take_left data _

/-- C1 (code bug, gradient.rs line 114): evaluated on a one-element
input whose single instance is Radial, `Layer::prepare` issues a resize
of the LINEAR buffer (with the Linear sub-sequence's length, 0) and
never issues any resize of the Radial buffer, even though the Radial
sub-sequence is non-empty — refuting the claim that a prepare call with
a non-empty Radial sub-sequence performs no resize of the Linear
buffer. -/
theorem c1_radial_prepare_resizes_linear_buffer :
    (radialInstancesOf [sampleRadial 1]).isEmpty = false ∧
    Layer.prepareOps [sampleRadial 1] =
      [.resizeLinear 0, .writeRadial 0 [sampleRadialRec 1]] ∧
    (Layer.prepareOps [sampleRadial 1]).any PrepareOp.isResizeOfLinear = true ∧
    (Layer.prepareOps [sampleRadial 1]).any PrepareOp.isResizeOfRadial = false := by
  refine ⟨rfl, rfl, rfl, rfl⟩

/-- C2 (code bug, gradient.rs lines 113-118): starting from a layer
whose buffers hold 2 slots each, a prepare call with three Radial
instances leaves the Radial buffer's capacity at 2 — strictly below the
Radial sub-sequence's length 3 — because the radial branch resizes the
Linear buffer instead of the Radial one, so the Radial buffer is never
grown and ends up under-allocated. -/
theorem c2_radial_capacity_under_allocated :
    (radialInstancesOf [sampleRadial 1, sampleRadial 2, sampleRadial 3]).length = 3 ∧
    ((Layer.new 2).prepare
        [sampleRadial 1, sampleRadial 2, sampleRadial 3]).radial_instances.capacity = 2 ∧
    ((Layer.new 2).prepare
        [sampleRadial 1, sampleRadial 2, sampleRadial 3]).radial_instances.capacity <
      (radialInstancesOf [sampleRadial 1, sampleRadial 2, sampleRadial 3]).length := by
  refine ⟨rfl, rfl, by decide⟩

/-- C10 (code bug, gradient.rs lines 113-118): starting from a layer
whose Radial buffer holds 1 slot, a prepare call with two Radial
instances leaves the Radial buffer without slot 1 entirely (the buffer
is never grown, and the two-element copy does not fit, so it is a
device validation error and nothing lands), so slot 0 does not hold the
first Radial instance and slot 1 does not exist — refuting the claim
that after prepare slot `i` of a kind's buffer holds the `i`-th
same-kind input instance for every `i` below the sub-sequence's
length. -/
theorem c10_radial_slots_not_populated :
    (radialInstancesOf [sampleRadial 1, sampleRadial 2]).length = 2 ∧
    ((Layer.new 1).prepare
        [sampleRadial 1, sampleRadial 2]).radial_instances.contents.get? 1 = none ∧
    ((Layer.new 1).prepare
        [sampleRadial 1, sampleRadial 2]).radial_instances.contents.get? 0 ≠
      some (sampleRadialRec 1) := by
  refine ⟨rfl, rfl, by decide⟩

/-- C4: for every starting layer and input, a kind whose sub-sequence is
empty has its buffer's capacity and contents left untouched by
`Layer::prepare` (the spurious no-op resize call the radial branch
issues on the Linear buffer requests the empty Linear sub-sequence's
length 0, which can never grow the buffer); and for an empty input list
both buffers are untouched and no buffer operation — in particular no
memory transfer — is issued at all. -/
theorem c4_empty_subsequence_buffer_untouched (layer : Layer) (instances : List Gradient) :
    (linearInstancesOf instances = [] →
      (layer.prepare instances).linear_instances = layer.linear_instances) ∧
    (radialInstancesOf instances = [] →
      (layer.prepare instances).radial_instances = layer.radial_instances) ∧
    (instances = [] →
      (layer.prepare instances).linear_instances = layer.linear_instances ∧
      (layer.prepare instances).radial_instances = layer.radial_instances ∧
      Layer.prepareOps instances = []) := by
  refine ⟨?_, ?_, ?_⟩
  · intro h
    by_cases hr : radialInstancesOf instances = []
    · simp [Layer.prepare, Layer.prepareOps, h, hr]
    · simp only [Layer.prepare, Layer.prepareOps, h, List.isEmpty_nil, if_true,
        List.isEmpty_eq_false.mpr hr, Bool.false_eq_true, if_false, List.length_nil,
        List.nil_append, List.foldl_cons, List.foldl_nil, Layer.applyOp]
      simp [Buffer.resize]
  · intro h
    by_cases hl : linearInstancesOf instances = []
    · simp [Layer.prepare, Layer.prepareOps, h, hl]
    · simp only [Layer.prepare, Layer.prepareOps, h, List.isEmpty_nil, if_true,
        List.isEmpty_eq_false.mpr hl, Bool.false_eq_true, if_false,
        List.append_nil, List.foldl_cons, List.foldl_nil, Layer.applyOp]
  · intro h
    subst h
    exact ⟨rfl, rfl, rfl⟩

/-- The five-instance input of spec §8's interleaved test:
[Linear, Radial, Linear, Radial, Linear]. -/
def c5Input : List Gradient :=
  [sampleLinear 1, sampleRadial 2, sampleLinear 3, sampleRadial 4, sampleLinear 5]

/-- The Linear sub-sequence expected for `c5Input`. -/
def c5LinearExpected : List LinearGradient :=
  [sampleLinearRec 1, sampleLinearRec 3, sampleLinearRec 5]

/-- The Radial sub-sequence expected for `c5Input`. -/
def c5RadialExpected : List RadialGradient :=
  [sampleRadialRec 2, sampleRadialRec 4]

/-- C5: on the interleaved five-instance input [L,R,L,R,L],
`Layer::prepare` computes the Linear sub-sequence [L1,L2,L3] and the
Radial sub-sequence [R1,R2] in original order, and — from any starting
layer whose Radial buffer has at least 2 slots (the Radial buffer is
never resized by the source, so its capacity must already suffice) —
leaves the Linear buffer's first three slots holding [L1,L2,L3] and the
Radial buffer's first two slots holding [R1,R2]. -/
theorem c5_interleaved_partition (layer : Layer)
    (h : 2 ≤ layer.radial_instances.capacity) :
    linearInstancesOf c5Input = c5LinearExpected ∧
    radialInstancesOf c5Input = c5RadialExpected ∧
    (layer.prepare c5Input).linear_instances.contents.take 3 = c5LinearExpected ∧
    (layer.prepare c5Input).radial_instances.contents.take 2 = c5RadialExpected := by
  have hops : Layer.prepareOps c5Input =
      [.resizeLinear 3, .writeLinear 0 c5LinearExpected,
       .resizeLinear 3, .writeRadial 0 c5RadialExpected] := rfl
  have hlin : (layer.prepare c5Input).linear_instances =
      ((layer.linear_instances.resize 3).write 0 c5LinearExpected).resize 3 := by
    simp only [Layer.prepare, hops, List.foldl_cons, List.foldl_nil, Layer.applyOp]
  have hrad : (layer.prepare c5Input).radial_instances =
      layer.radial_instances.write 0 c5RadialExpected := by
    simp only [Layer.prepare, hops, List.foldl_cons, List.foldl_nil, Layer.applyOp]
  have hcap : 3 ≤ ((layer.linear_instances.resize 3).write 0 c5LinearExpected).capacity := by
    rw [Buffer.capacity_write]
    exact Buffer.le_capacity_resize layer.linear_instances 3
  refine ⟨rfl, rfl, ?_, ?_⟩
  · rw [hlin, Buffer.resize_eq_of_le _ 3 hcap]
    exact Buffer.write_take_of_len _ c5LinearExpected 3 rfl
      (Buffer.le_capacity_resize layer.linear_instances 3)
  · rw [hrad]
    exact Buffer.write_take_of_len _ c5RadialExpected 2 rfl h

/-- C5 witness: the theorem applied to a fresh layer with two-slot
buffers. -/
theorem c5_interleaved_partition_witness :
    2 ≤ (Layer.new 2).radial_instances.capacity ∧
    (linearInstancesOf c5Input = c5LinearExpected ∧
     radialInstancesOf c5Input = c5RadialExpected ∧
     ((Layer.new 2).prepare c5Input).linear_instances.contents.take 3 = c5LinearExpected ∧
     ((Layer.new 2).prepare c5Input).radial_instances.contents.take 2 = c5RadialExpected) :=
  ⟨by decide, c5_interleaved_partition (Layer.new 2) (by decide)⟩

/-- C4 witness: the theorem applied to a fresh two-slot layer and a
single-Radial input (Linear sub-sequence empty), and to the empty
input. -/
theorem c4_empty_subsequence_buffer_untouched_witness :
    (((Layer.new 2).prepare [sampleRadial 1]).linear_instances =
      (Layer.new 2).linear_instances) ∧
    (((Layer.new 2).prepare []).linear_instances = (Layer.new 2).linear_instances ∧
     ((Layer.new 2).prepare []).radial_instances = (Layer.new 2).radial_instances ∧
     Layer.prepareOps [] = []) :=
  ⟨(c4_empty_subsequence_buffer_untouched (Layer.new 2) [sampleRadial 1]).1 (by decide),
   (c4_empty_subsequence_buffer_untouched (Layer.new 2) []).2.2 rfl⟩

/-- C6: for every draw range and strategy, `Pipeline::render` records
exactly one pipeline binding and exactly one vertex buffer binding, and
both carry the strategy's kind — so with strategy Radial only the Radial
pipeline and the Radial instance buffer are bound, and with strategy
Linear only the Linear ones. -/
theorem c6_render_binds_by_kind (rangeStart rangeEnd : Nat)
    (strategy : GradientRenderStrategy) :
    (Pipeline.render rangeStart rangeEnd strategy).filterMap cmdPipelineKind =
      [strategy] ∧
    (Pipeline.render rangeStart rangeEnd strategy).filterMap cmdBufferKind =
      [strategy] := by
  cases strategy <;> exact ⟨rfl, rfl⟩

/-- C8: each pipeline's shader module is the concatenation, in order, of
the shared quad-shape fragment, the shared vertex-transform fragment,
the kind-specific fill fragment, the shared color fragment and the
shared color-linearization fragment; the Radial pipeline's fragment list
is the Linear one with only position 2 (the fill fragment) replaced. -/
theorem c8_shader_fragment_order :
    shaderFragments .Linear =
      [.quadShape, .vertexTransform, .fillLinear, .colorModule, .linearRgbModule] ∧
    shaderFragments .Radial =
      [.quadShape, .vertexTransform, .fillRadial, .colorModule, .linearRgbModule] ∧
    shaderFragments .Radial = (shaderFragments .Linear).set 2 .fillRadial :=
  ⟨rfl, rfl, rfl⟩

/-- C9 counterexample: at the range [2^32, 2^32 + 1) the recorded draw
covers instances 0 through 0 — not instance 2^32 — because the source
casts the `usize` bounds to `u32` (gradient.rs line 277), truncating
them modulo 2^32; the claim as stated is therefore false at this
input. -/
theorem c9_draw_range_truncates :
    drawsOf (Pipeline.render 4294967296 4294967297 .Linear) ≠
      [(0, 6, 4294967296, 4294967297)] ∧
    drawsOf (Pipeline.render 4294967296 4294967297 .Linear) = [(0, 6, 0, 1)] := by
  refine ⟨by decide, by decide⟩

/-- C9 (amended): for every strategy and every half-open range whose
bounds are below 2^32 (so that the `as u32` casts are value-preserving),
`Pipeline::render` records exactly one draw, covering exactly vertices
0 through 5 and exactly instances `start` through `end - 1`. -/
theorem c9_draw_covers_six_vertices_and_range (rangeStart rangeEnd : Nat)
    (strategy : GradientRenderStrategy)
    (h1 : rangeStart < U32_MOD) (h2 : rangeEnd < U32_MOD) :
    drawsOf (Pipeline.render rangeStart rangeEnd strategy) =
      [(0, 6, rangeStart, rangeEnd)] := by
  cases strategy <;>
    simp [drawsOf, Pipeline.render, Nat.mod_eq_of_lt h1, Nat.mod_eq_of_lt h2]

/-- C9 witness: the amended theorem applied to the range [1, 3) with the
Radial strategy. -/
theorem c9_draw_covers_six_vertices_and_range_witness :
    1 < U32_MOD ∧ 3 < U32_MOD ∧
    drawsOf (Pipeline.render 1 3 .Radial) = [(0, 6, 1, 3)] :=
  ⟨by decide, by decide,
   c9_draw_covers_six_vertices_and_range 1 3 .Radial (by decide) (by decide)⟩

/-- C7 (code bug, gradient.rs line 205): the vertex buffer layout is
instance-stepped and lists exactly the eleven attributes the spec
states, in order — five 4x32-bit unsigned-integer words, four 4x32-bit
float words, one 32-bit float and one 32-bit word — and those formats
sum to 152 bytes, the byte size of the flattened per-kind instance
record; but the configured `array_stride` is
`std::mem::size_of::<Gradient>()`, the size of the TAGGED CPU-side
struct (one tag word more than the untagged payload, 156 bytes), so the
stride does not match the flattened record byte-for-byte. -/
theorem c7_stride_does_not_match_flattened_record :
    gradientVertexStepMode = .Instance ∧
    gradientVertexAttrs.map (fun a => a.shaderLocation) = List.range 11 ∧
    gradientVertexAttrs.map (fun a => a.format) =
      [.Uint32x4, .Uint32x4, .Uint32x4, .Uint32x4, .Uint32x4,
       .Float32x4, .Float32x4, .Float32x4, .Float32x4, .Float32, .Uint32] ∧
    (gradientVertexAttrs.map (fun a => a.format.byteSize)).sum = flattenedInstanceBytes ∧
    flattenedInstanceBytes = 152 ∧
    gradientArrayStride = 156 ∧
    gradientArrayStride ≠ flattenedInstanceBytes := by
  refine ⟨rfl, by decide, rfl, by decide, rfl, rfl, by decide⟩

end IcedGradient
